import Mathlib

/-!
Verification of the ocp-diag-core-rust artifact model and emission engine.

The development shallowly embeds the repository's code:
* `src/spec.rs` (the wire data model and its serde serialization) is translated
  into the `Spec` namespace below;
* `src/output/run.rs` (the `TestRun` lifecycle objects and builders) is
  translated into the `Output` namespace;
* the emitter / state / step / measurement-series modules are not part of the
  provided sources; they are modelled from the specification document, and each
  such definition carries a doc comment starting with `Modelled from the spec:`.

JSON values are modelled by the inductive `Json` below. JSON numbers are
modelled by integers: every numeric value appearing in the claims is integral.
Maps (`serde_json::Map<String, Value>`) are modelled as association lists with
insert-or-replace semantics; none of the claims depend on the iteration order
of a map. Machine counters (`u64`) are modelled by `Nat`: no claim exercises
wraparound at `2^64`.
-/

/-- Model of a JSON value (`serde_json::Value`); numbers are restricted to
integers, which covers every value the claims mention. -/
inductive Json where
  | null : Json
  | bool : Bool → Json
  | num : Int → Json
  | str : String → Json
  | arr : List Json → Json
  | obj : List (String × Json) → Json

mutual

/-- Decidable equality for `Json` (the derive handler does not support nested
inductives, so it is spelled out). -/
def Json.decEq : (a b : Json) → Decidable (a = b)
  | .null, .null => .isTrue rfl
  | .bool x, .bool y =>
    if h : x = y then .isTrue (congrArg Json.bool h)
    else .isFalse (fun hh => h (Json.bool.inj hh))
  | .num x, .num y =>
    if h : x = y then .isTrue (congrArg Json.num h)
    else .isFalse (fun hh => h (Json.num.inj hh))
  | .str x, .str y =>
    if h : x = y then .isTrue (congrArg Json.str h)
    else .isFalse (fun hh => h (Json.str.inj hh))
  | .arr xs, .arr ys =>
    match Json.decEqList xs ys with
    | .isTrue h => .isTrue (congrArg Json.arr h)
    | .isFalse h => .isFalse (fun hh => h (Json.arr.inj hh))
  | .obj xs, .obj ys =>
    match Json.decEqKvs xs ys with
    | .isTrue h => .isTrue (congrArg Json.obj h)
    | .isFalse h => .isFalse (fun hh => h (Json.obj.inj hh))
  | .null, .bool _ => .isFalse (fun h => Json.noConfusion h)
  | .null, .num _ => .isFalse (fun h => Json.noConfusion h)
  | .null, .str _ => .isFalse (fun h => Json.noConfusion h)
  | .null, .arr _ => .isFalse (fun h => Json.noConfusion h)
  | .null, .obj _ => .isFalse (fun h => Json.noConfusion h)
  | .bool _, .null => .isFalse (fun h => Json.noConfusion h)
  | .bool _, .num _ => .isFalse (fun h => Json.noConfusion h)
  | .bool _, .str _ => .isFalse (fun h => Json.noConfusion h)
  | .bool _, .arr _ => .isFalse (fun h => Json.noConfusion h)
  | .bool _, .obj _ => .isFalse (fun h => Json.noConfusion h)
  | .num _, .null => .isFalse (fun h => Json.noConfusion h)
  | .num _, .bool _ => .isFalse (fun h => Json.noConfusion h)
  | .num _, .str _ => .isFalse (fun h => Json.noConfusion h)
  | .num _, .arr _ => .isFalse (fun h => Json.noConfusion h)
  | .num _, .obj _ => .isFalse (fun h => Json.noConfusion h)
  | .str _, .null => .isFalse (fun h => Json.noConfusion h)
  | .str _, .bool _ => .isFalse (fun h => Json.noConfusion h)
  | .str _, .num _ => .isFalse (fun h => Json.noConfusion h)
  | .str _, .arr _ => .isFalse (fun h => Json.noConfusion h)
  | .str _, .obj _ => .isFalse (fun h => Json.noConfusion h)
  | .arr _, .null => .isFalse (fun h => Json.noConfusion h)
  | .arr _, .bool _ => .isFalse (fun h => Json.noConfusion h)
  | .arr _, .num _ => .isFalse (fun h => Json.noConfusion h)
  | .arr _, .str _ => .isFalse (fun h => Json.noConfusion h)
  | .arr _, .obj _ => .isFalse (fun h => Json.noConfusion h)
  | .obj _, .null => .isFalse (fun h => Json.noConfusion h)
  | .obj _, .bool _ => .isFalse (fun h => Json.noConfusion h)
  | .obj _, .num _ => .isFalse (fun h => Json.noConfusion h)
  | .obj _, .str _ => .isFalse (fun h => Json.noConfusion h)
  | .obj _, .arr _ => .isFalse (fun h => Json.noConfusion h)

/-- Decidable equality for lists of `Json`. -/
def Json.decEqList : (xs ys : List Json) → Decidable (xs = ys)
  | [], [] => .isTrue rfl
  | [], _ :: _ => .isFalse (fun h => List.noConfusion h)
  | _ :: _, [] => .isFalse (fun h => List.noConfusion h)
  | x :: xs, y :: ys =>
    match Json.decEq x y with
    | .isTrue h1 =>
      match Json.decEqList xs ys with
      | .isTrue h2 => .isTrue (by rw [h1, h2])
      | .isFalse h2 => .isFalse (fun h => h2 (List.cons.inj h).2)
    | .isFalse h1 => .isFalse (fun h => h1 (List.cons.inj h).1)

/-- Decidable equality for lists of key-value pairs of `Json`. -/
def Json.decEqKvs : (xs ys : List (String × Json)) → Decidable (xs = ys)
  | [], [] => .isTrue rfl
  | [], _ :: _ => .isFalse (fun h => List.noConfusion h)
  | _ :: _, [] => .isFalse (fun h => List.noConfusion h)
  | (k1, v1) :: xs, (k2, v2) :: ys =>
    if hk : k1 = k2 then
      match Json.decEq v1 v2 with
      | .isTrue hv =>
        match Json.decEqKvs xs ys with
        | .isTrue ht => .isTrue (by rw [hk, hv, ht])
        | .isFalse ht => .isFalse (fun h => ht (List.cons.inj h).2)
      | .isFalse hv =>
        .isFalse (fun h => hv (congrArg Prod.snd (List.cons.inj h).1))
    else
      .isFalse (fun h => hk (congrArg Prod.fst (List.cons.inj h).1))

end

instance : DecidableEq Json := Json.decEq

/-- Association-list lookup on the key-value pairs of a serialized object. -/
def jsonLookup : List (String × Json) → String → Option Json
  | [], _ => none
  | (k, v) :: rest, key => if k = key then some v else jsonLookup rest key

/-- Lookup of a key inside a JSON object (`none` on non-objects). -/
def Json.lookup : Json → String → Option Json
  | .obj kvs, key => jsonLookup kvs key
  | _, _ => none

/-- Keys of a JSON object, in serialization order. -/
def Json.keys : Json → List String
  | .obj kvs => kvs.map Prod.fst
  | _ => []

/-- Model of `serde_json::Map<String, Value>` as an association list. -/
abbrev JsonMap := List (String × Json)

/-- Insert-or-replace on a JSON map, mirroring `Map::insert`. -/
def mapInsert (m : JsonMap) (k : String) (v : Json) : JsonMap :=
  if (jsonLookup m k).isSome then
    m.map (fun kv => if kv.1 = k then (k, v) else kv)
  else
    m ++ [(k, v)]

/-- Serialization of an `Option` field: serde renders `None` as JSON `null`
and `Some x` as the serialization of `x` (no field is ever omitted, since the
source declares no `skip_serializing_if` attribute). -/
def optJson {α : Type} (f : α → Json) : Option α → Json
  | none => Json.null
  | some a => f a

namespace Spec

/-- Translated from `src/spec.rs`: `SPEC_VERSION`. -/
def SPEC_VERSION : Int × Int := (2, 0)

/-- Nanoseconds since the Unix epoch, the instant carried by a
`chrono::DateTime<chrono_tz::Tz>`. Equality of `DateTime` values in chrono
compares the instants, which this integer captures. -/
abbrev Timestamp := Int

/-- Translated from `src/spec.rs` `rfc3339_format::serialize`: the value is
rendered by chrono with `SecondsFormat::Millis`, so exactly the whole
milliseconds of the instant reach the wire. The chrono RFC3339 rendering is an
external library call; it is modelled here by the (injective image of the
rendered string) count of whole milliseconds it displays. -/
def rfc3339_serialize (t : Timestamp) : Json :=
  Json.num (Int.fdiv t 1000000)

/-- Translated from `src/spec.rs` `rfc3339_format::deserialize`: the RFC3339
string is parsed by chrono and converted to a UTC instant; in the model the
encoded millisecond count is converted back to nanoseconds. Malformed input
(a non-numeric model value) fails, as `parse_from_rfc3339` does. -/
def rfc3339_deserialize : Json → Option Timestamp
  | .num ms => some (ms * 1000000)
  | _ => none

/-- Translated from `src/spec.rs`: `ValidatorType` (wire values are the fixed
serde rename strings). -/
inductive ValidatorType where
  | Equal | NotEqual | LessThan | LessThenOrEqual | GreaterThen
  | GreaterThenOrEqual | RegexMatch | RegexNoMatch | InSet | NotInSet
  deriving DecidableEq

/-- Serde serialization of `ValidatorType`. -/
def ValidatorType.serialize : ValidatorType → Json
  | .Equal => .str ("EQUAL")
  | .NotEqual => .str ("NOT_EQUAL")
  | .LessThan => .str ("LESS_THAN")
  | .LessThenOrEqual => .str ("LESS_THAN_OR_EQUAL")
  | .GreaterThen => .str ("GREATER_THAN")
  | .GreaterThenOrEqual => .str ("GREATER_THAN_OR_EQUAL")
  | .RegexMatch => .str ("REGEX_MATCH")
  | .RegexNoMatch => .str ("REGEX_NO_MATCH")
  | .InSet => .str ("IN_SET")
  | .NotInSet => .str ("NOT_IN_SET")

/-- Translated from `src/spec.rs`: `SubcomponentType`. -/
inductive SubcomponentType where
  | Unspecified | Asic | AsicSubsystem | Bus | Function | Connector
  deriving DecidableEq

/-- Serde serialization of `SubcomponentType`. -/
def SubcomponentType.serialize : SubcomponentType → Json
  | .Unspecified => .str ("UNSPECIFIED")
  | .Asic => .str ("ASIC")
  | .AsicSubsystem => .str ("ASIC-SUBSYSTEM")
  | .Bus => .str ("BUS")
  | .Function => .str ("FUNCTION")
  | .Connector => .str ("CONNECTOR")

/-- Translated from `src/spec.rs`: `ExtensionContentType`; the `Float` payload
is represented by the integer model of JSON numbers. -/
inductive ExtensionContentType where
  | Float : Int → ExtensionContentType
  | Int : Int → ExtensionContentType
  | Bool : Bool → ExtensionContentType
  | Str : String → ExtensionContentType
  deriving DecidableEq

/-- Serde serialization of `ExtensionContentType` (externally tagged enum). -/
def ExtensionContentType.serialize : ExtensionContentType → Json
  | .Float f => .obj [("float", .num f)]
  | .Int i => .obj [("int", .num i)]
  | .Bool b => .obj [("bool", .bool b)]
  | .Str s => .obj [("str", .str s)]

/-- Translated from `src/spec.rs`: `DiagnosisType`. -/
inductive DiagnosisType where
  | Pass | Fail | Unknown
  deriving DecidableEq

/-- Serde serialization of `DiagnosisType`. -/
def DiagnosisType.serialize : DiagnosisType → Json
  | .Pass => .str ("PASS")
  | .Fail => .str ("FAIL")
  | .Unknown => .str ("UNKNOWN")

/-- Translated from `src/spec.rs`: `TestStatus`. -/
inductive TestStatus where
  | Complete | Error | Skip
  deriving DecidableEq

/-- Serde serialization of `TestStatus`. -/
def TestStatus.serialize : TestStatus → Json
  | .Complete => .str ("COMPLETE")
  | .Error => .str ("ERROR")
  | .Skip => .str ("SKIP")

/-- Translated from `src/spec.rs`: `TestResult`. -/
inductive TestResult where
  | Pass | Fail | NotApplicable
  deriving DecidableEq

/-- Serde serialization of `TestResult`. -/
def TestResult.serialize : TestResult → Json
  | .Pass => .str ("PASS")
  | .Fail => .str ("FAIL")
  | .NotApplicable => .str ("NOT_APPLICABLE")

/-- Translated from `src/spec.rs`: `LogSeverity`. -/
inductive LogSeverity where
  | Debug | Info | Warning | Error | Fatal
  deriving DecidableEq

/-- Serde serialization of `LogSeverity`. -/
def LogSeverity.serialize : LogSeverity → Json
  | .Debug => .str ("DEBUG")
  | .Info => .str ("INFO")
  | .Warning => .str ("WARNING")
  | .Error => .str ("ERROR")
  | .Fatal => .str ("FATAL")

/-- Translated from `src/spec.rs`: `SoftwareType`. -/
inductive SoftwareType where
  | Unspecified | Firmware | System | Application
  deriving DecidableEq

/-- Serde serialization of `SoftwareType`. -/
def SoftwareType.serialize : SoftwareType → Json
  | .Unspecified => .str ("UNSPECIFIED")
  | .Firmware => .str ("FIRMWARE")
  | .System => .str ("SYSTEM")
  | .Application => .str ("APPLICATION")

/-- Translated from `src/spec.rs`: `SchemaVersion`. -/
structure SchemaVersion where
  major : Int
  minor : Int
  deriving DecidableEq

/-- Serde serialization of `SchemaVersion` (field order as declared). -/
def SchemaVersion.serialize (v : SchemaVersion) : Json :=
  .obj [("major", .num v.major), ("minor", .num v.minor)]

/-- Translated from `src/spec.rs`: `PlatformInfo`. -/
structure PlatformInfo where
  info : String
  deriving DecidableEq

/-- Serde serialization of `PlatformInfo`. -/
def PlatformInfo.serialize (p : PlatformInfo) : Json :=
  .obj [("info", .str p.info)]

/-- Translated from `src/spec.rs`: `SoftwareInfo`. -/
structure SoftwareInfo where
  id : String
  name : String
  version : Option String
  revision : Option String
  software_type : Option SoftwareType
  computer_system : Option String
  deriving DecidableEq

/-- Serde serialization of `SoftwareInfo`. -/
def SoftwareInfo.serialize (s : SoftwareInfo) : Json :=
  .obj [("softwareInfoId", .str s.id),
        ("name", .str s.name),
        ("version", optJson Json.str s.version),
        ("revision", optJson Json.str s.revision),
        ("softwareType", optJson SoftwareType.serialize s.software_type),
        ("computerSystem", optJson Json.str s.computer_system)]

/-- Translated from `src/spec.rs`: `HardwareInfo`. -/
structure HardwareInfo where
  id : String
  name : String
  version : Option String
  revision : Option String
  location : Option String
  serial_no : Option String
  part_no : Option String
  manufacturer : Option String
  manufacturer_part_no : Option String
  odata_id : Option String
  computer_system : Option String
  manager : Option String
  deriving DecidableEq

/-- Serde serialization of `HardwareInfo`. -/
def HardwareInfo.serialize (h : HardwareInfo) : Json :=
  .obj [("hardwareInfoId", .str h.id),
        ("name", .str h.name),
        ("version", optJson Json.str h.version),
        ("revision", optJson Json.str h.revision),
        ("location", optJson Json.str h.location),
        ("serialNumber", optJson Json.str h.serial_no),
        ("partNumber", optJson Json.str h.part_no),
        ("manufacturer", optJson Json.str h.manufacturer),
        ("manufacturerPartNumber", optJson Json.str h.manufacturer_part_no),
        ("odataId", optJson Json.str h.odata_id),
        ("computerSystem", optJson Json.str h.computer_system),
        ("manager", optJson Json.str h.manager)]

/-- Translated from `src/spec.rs`: `DutInfo`. -/
structure DutInfo where
  id : String
  name : Option String
  platform_infos : Option (List PlatformInfo)
  software_infos : Option (List SoftwareInfo)
  hardware_infos : Option (List HardwareInfo)
  metadata : Option JsonMap
  deriving DecidableEq

/-- Serde serialization of `DutInfo` (every optional field stays present as
`null` when unset). -/
def DutInfo.serialize (d : DutInfo) : Json :=
  .obj [("dutInfoId", .str d.id),
        ("name", optJson Json.str d.name),
        ("platformInfos", optJson (fun l => Json.arr (l.map PlatformInfo.serialize)) d.platform_infos),
        ("softwareInfos", optJson (fun l => Json.arr (l.map SoftwareInfo.serialize)) d.software_infos),
        ("hardwareInfos", optJson (fun l => Json.arr (l.map HardwareInfo.serialize)) d.hardware_infos),
        ("metadata", optJson Json.obj d.metadata)]

/-- Translated from `src/spec.rs`: `TestRunStart`. -/
structure TestRunStart where
  name : String
  version : String
  command_line : String
  parameters : JsonMap
  dut_info : DutInfo
  metadata : Option JsonMap
  deriving DecidableEq

/-- Serde serialization of `TestRunStart`. -/
def TestRunStart.serialize (t : TestRunStart) : Json :=
  .obj [("name", .str t.name),
        ("version", .str t.version),
        ("commandLine", .str t.command_line),
        ("parameters", .obj t.parameters),
        ("dutInfo", t.dut_info.serialize),
        ("metadata", optJson Json.obj t.metadata)]

/-- Translated from `src/spec.rs`: `TestRunEnd`. -/
structure TestRunEnd where
  status : TestStatus
  result : TestResult
  deriving DecidableEq

/-- Serde serialization of `TestRunEnd`. -/
def TestRunEnd.serialize (t : TestRunEnd) : Json :=
  .obj [("status", t.status.serialize), ("result", t.result.serialize)]

/-- Translated from `src/spec.rs`: `SourceLocation`. -/
structure SourceLocation where
  file : String
  line : Int
  deriving DecidableEq

/-- Serde serialization of `SourceLocation`. -/
def SourceLocation.serialize (s : SourceLocation) : Json :=
  .obj [("file", .str s.file), ("line", .num s.line)]

/-- Translated from `src/spec.rs`: `Error` (note the source serializes the
`software_infos` field under the key `softwareInfoIds`). -/
structure Error where
  symptom : String
  message : Option String
  software_infos : Option (List SoftwareInfo)
  source_location : Option SourceLocation
  deriving DecidableEq

/-- Serde serialization of `Error`. -/
def Error.serialize (e : Error) : Json :=
  .obj [("symptom", .str e.symptom),
        ("message", optJson Json.str e.message),
        ("softwareInfoIds", optJson (fun l => Json.arr (l.map SoftwareInfo.serialize)) e.software_infos),
        ("sourceLocation", optJson SourceLocation.serialize e.source_location)]

/-- Translated from `src/spec.rs`: `Log`. -/
structure Log where
  severity : LogSeverity
  message : String
  source_location : Option SourceLocation
  deriving DecidableEq

/-- Serde serialization of `Log`. -/
def Log.serialize (l : Log) : Json :=
  .obj [("severity", l.severity.serialize),
        ("message", .str l.message),
        ("sourceLocation", optJson SourceLocation.serialize l.source_location)]

/-- Translated from `src/spec.rs`: `TestStepStart`. -/
structure TestStepStart where
  name : String
  deriving DecidableEq

/-- Serde serialization of `TestStepStart`. -/
def TestStepStart.serialize (t : TestStepStart) : Json :=
  .obj [("name", .str t.name)]

/-- Translated from `src/spec.rs`: `TestStepEnd`. -/
structure TestStepEnd where
  status : TestStatus
  deriving DecidableEq

/-- Serde serialization of `TestStepEnd`. -/
def TestStepEnd.serialize (t : TestStepEnd) : Json :=
  .obj [("status", t.status.serialize)]

/-- Translated from `src/spec.rs`: `Validator`. -/
structure Validator where
  name : Option String
  validator_type : ValidatorType
  value : Json
  metadata : Option JsonMap
  deriving DecidableEq

/-- Serde serialization of `Validator`. -/
def Validator.serialize (v : Validator) : Json :=
  .obj [("name", optJson Json.str v.name),
        ("type", v.validator_type.serialize),
        ("value", v.value),
        ("metadata", optJson Json.obj v.metadata)]

/-- Translated from `src/spec.rs`: `Subcomponent`. -/
structure Subcomponent where
  subcomponent_type : Option SubcomponentType
  name : String
  location : Option String
  version : Option String
  revision : Option String
  deriving DecidableEq

/-- Serde serialization of `Subcomponent`. -/
def Subcomponent.serialize (s : Subcomponent) : Json :=
  .obj [("type", optJson SubcomponentType.serialize s.subcomponent_type),
        ("name", .str s.name),
        ("location", optJson Json.str s.location),
        ("version", optJson Json.str s.version),
        ("revision", optJson Json.str s.revision)]

/-- Translated from `src/spec.rs`: `Measurement`. -/
structure Measurement where
  name : String
  value : Json
  unit : Option String
  validators : Option (List Validator)
  hardware_info_id : Option String
  subcomponent : Option Subcomponent
  metadata : Option JsonMap
  deriving DecidableEq

/-- Serde serialization of `Measurement`. -/
def Measurement.serialize (m : Measurement) : Json :=
  .obj [("name", .str m.name),
        ("value", m.value),
        ("unit", optJson Json.str m.unit),
        ("validators", optJson (fun l => Json.arr (l.map Validator.serialize)) m.validators),
        ("hardwareInfoId", optJson Json.str m.hardware_info_id),
        ("subcomponent", optJson Subcomponent.serialize m.subcomponent),
        ("metadata", optJson Json.obj m.metadata)]

/-- Translated from `src/spec.rs`: `MeasurementSeriesStart` (note the source
serializes the `hardware_info` field under the key `hardwareInfoId`). -/
structure MeasurementSeriesStart where
  name : String
  unit : Option String
  series_id : String
  validators : Option (List Validator)
  hardware_info : Option HardwareInfo
  subcomponent : Option Subcomponent
  metadata : Option JsonMap
  deriving DecidableEq

/-- Serde serialization of `MeasurementSeriesStart`. -/
def MeasurementSeriesStart.serialize (m : MeasurementSeriesStart) : Json :=
  .obj [("name", .str m.name),
        ("unit", optJson Json.str m.unit),
        ("measurementSeriesId", .str m.series_id),
        ("validators", optJson (fun l => Json.arr (l.map Validator.serialize)) m.validators),
        ("hardwareInfoId", optJson HardwareInfo.serialize m.hardware_info),
        ("subComponent", optJson Subcomponent.serialize m.subcomponent),
        ("metadata", optJson Json.obj m.metadata)]

/-- Translated from `src/spec.rs`: `MeasurementSeriesEnd`. -/
structure MeasurementSeriesEnd where
  series_id : String
  total_count : Nat
  deriving DecidableEq

/-- Serde serialization of `MeasurementSeriesEnd`. -/
def MeasurementSeriesEnd.serialize (m : MeasurementSeriesEnd) : Json :=
  .obj [("measurementSeriesId", .str m.series_id),
        ("totalCount", .num (Int.ofNat m.total_count))]

/-- Translated from `src/spec.rs`: `MeasurementSeriesElement` (the only
artifact that also derives `Deserialize`). -/
structure MeasurementSeriesElement where
  index : Nat
  value : Json
  timestamp : Timestamp
  series_id : String
  metadata : Option JsonMap
  deriving DecidableEq

/-- Serde serialization of `MeasurementSeriesElement`; the `timestamp` field
has no serde rename, so it serializes under its own name through
`rfc3339_format`. -/
def MeasurementSeriesElement.serialize (m : MeasurementSeriesElement) : Json :=
  .obj [("index", .num (Int.ofNat m.index)),
        ("value", m.value),
        ("timestamp", rfc3339_serialize m.timestamp),
        ("measurementSeriesId", .str m.series_id),
        ("metadata", optJson Json.obj m.metadata)]

/-- Serde deserialization of `MeasurementSeriesElement`: each field is read
back from the object by key; the timestamp goes through
`rfc3339_format::deserialize`. -/
def MeasurementSeriesElement.deserialize (j : Json) : Option MeasurementSeriesElement :=
  match j.lookup ("index"), j.lookup ("value"), j.lookup ("timestamp"),
        j.lookup ("measurementSeriesId"), j.lookup ("metadata") with
  | some (.num i), some v, some tj, some (.str sid), some mj =>
    match rfc3339_deserialize tj with
    | some ts =>
      if 0 ≤ i then
        match mj with
        | .null => some { index := i.toNat, value := v, timestamp := ts,
                          series_id := sid, metadata := none }
        | .obj m => some { index := i.toNat, value := v, timestamp := ts,
                           series_id := sid, metadata := some m }
        | _ => none
      else none
    | none => none
  | _, _, _, _, _ => none

/-- Translated from `src/spec.rs`: `Diagnosis` (note the source serializes the
`hardware_info` field under the serde rename `validators`). -/
structure Diagnosis where
  verdict : String
  diagnosis_type : DiagnosisType
  message : Option String
  hardware_info : Option HardwareInfo
  subcomponent : Option Subcomponent
  source_location : Option SourceLocation
  deriving DecidableEq

/-- Serde serialization of `Diagnosis`. -/
def Diagnosis.serialize (d : Diagnosis) : Json :=
  .obj [("verdict", .str d.verdict),
        ("type", d.diagnosis_type.serialize),
        ("message", optJson Json.str d.message),
        ("validators", optJson HardwareInfo.serialize d.hardware_info),
        ("subComponent", optJson Subcomponent.serialize d.subcomponent),
        ("sourceLocation", optJson SourceLocation.serialize d.source_location)]

/-- Translated from `src/spec.rs`: `File`. -/
structure File where
  name : String
  uri : String
  is_snapshot : Bool
  description : Option String
  content_type : Option String
  metadata : Option JsonMap
  deriving DecidableEq

/-- Serde serialization of `File`. -/
def File.serialize (f : File) : Json :=
  .obj [("name", .str f.name),
        ("uri", .str f.uri),
        ("isSnapshot", .bool f.is_snapshot),
        ("description", optJson Json.str f.description),
        ("contentType", optJson Json.str f.content_type),
        ("metadata", optJson Json.obj f.metadata)]

/-- Translated from `src/spec.rs`: `Extension`. -/
structure Extension where
  name : String
  content : ExtensionContentType
  deriving DecidableEq

/-- Serde serialization of `Extension`. -/
def Extension.serialize (e : Extension) : Json :=
  .obj [("name", .str e.name), ("content", e.content.serialize)]

/-- Translated from `src/spec.rs`: `TestRunArtifactImpl`, the closed set of
run-level artifact kinds. -/
inductive TestRunArtifactImpl where
  | TestRunStart : TestRunStart → TestRunArtifactImpl
  | TestRunEnd : TestRunEnd → TestRunArtifactImpl
  | Log : Log → TestRunArtifactImpl
  | Error : Error → TestRunArtifactImpl
  deriving DecidableEq

/-- Serde serialization of `TestRunArtifactImpl` as the key-value pair of an
externally tagged enum. -/
def TestRunArtifactImpl.kv : TestRunArtifactImpl → String × Json
  | .TestRunStart t => ("testRunStart", t.serialize)
  | .TestRunEnd t => ("testRunEnd", t.serialize)
  | .Log l => ("log", l.serialize)
  | .Error e => ("error", e.serialize)

/-- Translated from `src/spec.rs`: `TestRunArtifact` (the enum is flattened
into the container object). -/
structure TestRunArtifact where
  artifact : TestRunArtifactImpl
  deriving DecidableEq

/-- Serde serialization of `TestRunArtifact`: the flattened enum contributes
its single tag key. -/
def TestRunArtifact.serialize (t : TestRunArtifact) : Json :=
  .obj [t.artifact.kv]

/-- Translated from `src/spec.rs`: `TestStepArtifactImpl`, the closed set of
step-level artifact kinds. -/
inductive TestStepArtifactImpl where
  | TestStepStart : TestStepStart → TestStepArtifactImpl
  | TestStepEnd : TestStepEnd → TestStepArtifactImpl
  | Measurement : Measurement → TestStepArtifactImpl
  | MeasurementSeriesStart : MeasurementSeriesStart → TestStepArtifactImpl
  | MeasurementSeriesEnd : MeasurementSeriesEnd → TestStepArtifactImpl
  | MeasurementSeriesElement : MeasurementSeriesElement → TestStepArtifactImpl
  | Diagnosis : Diagnosis → TestStepArtifactImpl
  | Log : Log → TestStepArtifactImpl
  | Error : Error → TestStepArtifactImpl
  | File : File → TestStepArtifactImpl
  | Extension : Extension → TestStepArtifactImpl
  deriving DecidableEq

/-- Serde serialization of `TestStepArtifactImpl` as the key-value pair of an
externally tagged enum. -/
def TestStepArtifactImpl.kv : TestStepArtifactImpl → String × Json
  | .TestStepStart t => ("testStepStart", t.serialize)
  | .TestStepEnd t => ("testStepEnd", t.serialize)
  | .Measurement m => ("measurement", m.serialize)
  | .MeasurementSeriesStart m => ("measurementSeriesStart", m.serialize)
  | .MeasurementSeriesEnd m => ("measurementSeriesEnd", m.serialize)
  | .MeasurementSeriesElement m => ("measurementSeriesElement", m.serialize)
  | .Diagnosis d => ("diagnosis", d.serialize)
  | .Log l => ("log", l.serialize)
  | .Error e => ("error", e.serialize)
  | .File f => ("file", f.serialize)
  | .Extension e => ("extension", e.serialize)

/-- Translated from `src/spec.rs`: `TestStepArtifact` (a `testStepId` field
plus the flattened step-level enum). -/
structure TestStepArtifact where
  id : String
  artifact : TestStepArtifactImpl
  deriving DecidableEq

/-- Serde serialization of `TestStepArtifact`. -/
def TestStepArtifact.serialize (t : TestStepArtifact) : Json :=
  .obj [("testStepId", .str t.id), t.artifact.kv]

/-- Translated from `src/spec.rs`: `RootImpl`, the closed set of root artifact
kinds. -/
inductive RootImpl where
  | SchemaVersion : SchemaVersion → RootImpl
  | TestRunArtifact : TestRunArtifact → RootImpl
  | TestStepArtifact : TestStepArtifact → RootImpl
  deriving DecidableEq

/-- Serde serialization of `RootImpl` as the key-value pair of an externally
tagged enum. -/
def RootImpl.kv : RootImpl → String × Json
  | .SchemaVersion v => ("schemaVersion", v.serialize)
  | .TestRunArtifact a => ("testRunArtifact", a.serialize)
  | .TestStepArtifact a => ("testStepArtifact", a.serialize)

/-- Translated from `src/spec.rs`: `Root`, the envelope actually written: the
flattened artifact, the timestamp and the sequence number. -/
structure Root where
  artifact : RootImpl
  timestamp : Timestamp
  seqno : Nat

/-- Serde serialization of `Root`: the flattened artifact tag, then
`timestamp` (through `rfc3339_format`), then `sequenceNumber`. -/
def Root.serialize (r : Root) : Json :=
  .obj [r.artifact.kv,
        ("timestamp", rfc3339_serialize r.timestamp),
        ("sequenceNumber", .num (Int.ofNat r.seqno))]

end Spec

namespace Output

/-- Modelled from the spec: the single error kind surfaced by the emitter
(`WriterError`); serialization failure and sink write failure are both
surfaced as this one synchronous error, with no retry. -/
inductive WriterError where
  | writerError
  deriving DecidableEq

/-- Modelled from the spec: the per-run shared state behind the emission lock:
the `now()` timestamp capability (a stream of instants, consumed one per emit
attempt), the sequence counter (starting at 0), and the sink, an append-only
list of successfully written lines. All emission from one run lineage funnels
through one value of this type; the lock serializes access, so in the model
each emit is one atomic state transition. -/
structure EmitterState where
  clock : Nat → Spec.Timestamp
  seqno : Nat
  lines : List Json

/-- Modelled from the spec: a fresh emitter for a newly built run: counter 0,
empty sink. -/
def EmitterState.init (clock : Nat → Spec.Timestamp) : EmitterState :=
  { clock := clock, seqno := 0, lines := [] }

/-- Modelled from the spec: `JsonEmitter::emit`. The artifact is wrapped into
a `Root` envelope with the current timestamp and sequence number; the counter
is incremented eagerly (it is consumed even when the subsequent encode/write
fails); on success the encoded line is appended to the sink, on failure
nothing reaches the sink and the error is returned. The `ok` argument is the
outcome of the external encode+write. -/
def emit (ok : Bool) (art : Spec.RootImpl) (s : EmitterState) :
    Except WriterError Unit × EmitterState :=
  let line := Spec.Root.serialize
    { artifact := art, timestamp := s.clock s.seqno, seqno := s.seqno }
  if ok then
    (.ok (), { s with seqno := s.seqno + 1, lines := s.lines ++ [line] })
  else
    (.error .writerError, { s with seqno := s.seqno + 1 })

/-- Emission of a list of artifacts, every encode+write succeeding; each call
commits in list order, which is the order in which the concurrent callers
acquired the emission lock. -/
def emitAll (arts : List Spec.RootImpl) (s : EmitterState) : EmitterState :=
  arts.foldl (fun st a => (emit true a st).2) s

/-- Translated from `src/output/run.rs`: the `SchemaVersion` output object. -/
structure SchemaVersion where
  major : Int
  minor : Int

/-- Translated from `src/output/run.rs`: `SchemaVersion::new`. -/
def SchemaVersion.new : SchemaVersion :=
  { major := Spec.SPEC_VERSION.1, minor := Spec.SPEC_VERSION.2 }

/-- Translated from `src/output/run.rs`: `SchemaVersion::to_artifact`. -/
def SchemaVersion.to_artifact (v : SchemaVersion) : Spec.RootImpl :=
  .SchemaVersion { major := v.major, minor := v.minor }

/-- Modelled from the spec (the `dut` module is not among the provided
sources): `DutInfo::new(id)` builds a DUT descriptor with the given id and
every optional field unset; `to_spec` is the identity on this value. -/
def DutInfo.new (id : String) : Spec.DutInfo :=
  { id := id, name := none, platform_infos := none, software_infos := none,
    hardware_infos := none, metadata := none }

/-- Translated from `src/output/run.rs`: the unstarted `TestRun` configuration
object. The shared `state` (emitter) is passed explicitly to the operations
instead of living behind an `Arc<Mutex<_>>`. -/
structure TestRun where
  name : String
  version : String
  parameters : JsonMap
  dut : Spec.DutInfo
  command_line : String
  metadata : Option JsonMap

/-- Translated from `src/output/run.rs`: `TestRunStart` (the run-start output
object). -/
structure TestRunStart where
  name : String
  version : String
  command_line : String
  parameters : JsonMap
  metadata : Option JsonMap
  dut_info : Spec.DutInfo

/-- Translated from `src/output/run.rs`: `TestRunStartBuilder`. -/
structure TestRunStartBuilder where
  name : String
  version : String
  command_line : String
  parameters : JsonMap
  metadata : Option JsonMap
  dut_info : Spec.DutInfo

/-- Translated from `src/output/run.rs`: `TestRunStartBuilder::new`. -/
def TestRunStartBuilder.new (name version command_line : String)
    (parameters : JsonMap) (dut_info : Spec.DutInfo) : TestRunStartBuilder :=
  { name := name, version := version, command_line := command_line,
    parameters := parameters, metadata := none, dut_info := dut_info }

/-- Translated from `src/output/run.rs`: `TestRunStartBuilder::add_metadata`. -/
def TestRunStartBuilder.add_metadata (b : TestRunStartBuilder) (key : String)
    (value : Json) : TestRunStartBuilder :=
  { b with metadata :=
      match b.metadata with
      | some metadata => some (mapInsert metadata key value)
      | none => some (mapInsert [] key value) }

/-- Translated from `src/output/run.rs`: `TestRunStartBuilder::build`. -/
def TestRunStartBuilder.build (b : TestRunStartBuilder) : TestRunStart :=
  { name := b.name, version := b.version, command_line := b.command_line,
    parameters := b.parameters, metadata := b.metadata, dut_info := b.dut_info }

/-- Translated from `src/output/run.rs`: `TestRunStart::builder`. -/
def TestRunStart.builder (name version command_line : String)
    (parameters : JsonMap) (dut_info : Spec.DutInfo) : TestRunStartBuilder :=
  TestRunStartBuilder.new name version command_line parameters dut_info

/-- Translated from `src/output/run.rs`: `TestRunStart::to_artifact`. -/
def TestRunStart.to_artifact (t : TestRunStart) : Spec.RootImpl :=
  let inner : Spec.TestRunStart :=
    { name := t.name, version := t.version, command_line := t.command_line,
      parameters := t.parameters, dut_info := t.dut_info,
      metadata := t.metadata }
  .TestRunArtifact { artifact := .TestRunStart inner }

/-- Translated from `src/output/run.rs`: `TestRunEnd` and its builder. -/
structure TestRunEnd where
  status : Spec.TestStatus
  result : Spec.TestResult

/-- Translated from `src/output/run.rs`: `TestRunEndBuilder`. -/
structure TestRunEndBuilder where
  status : Spec.TestStatus
  result : Spec.TestResult

/-- Translated from `src/output/run.rs`: `TestRunEndBuilder::new` (defaults
`Complete`/`Pass`). -/
def TestRunEndBuilder.new : TestRunEndBuilder :=
  { status := .Complete, result := .Pass }

/-- Translated from `src/output/run.rs`: `TestRunEndBuilder::status` (named
`with_status` here because Lean reserves the projection name). -/
def TestRunEndBuilder.with_status (b : TestRunEndBuilder)
    (value : Spec.TestStatus) : TestRunEndBuilder :=
  { b with status := value }

/-- Translated from `src/output/run.rs`: `TestRunEndBuilder::result` (named
`with_result` here because Lean reserves the projection name). -/
def TestRunEndBuilder.with_result (b : TestRunEndBuilder)
    (value : Spec.TestResult) : TestRunEndBuilder :=
  { b with result := value }

/-- Translated from `src/output/run.rs`: `TestRunEndBuilder::build`. -/
def TestRunEndBuilder.build (b : TestRunEndBuilder) : TestRunEnd :=
  { status := b.status, result := b.result }

/-- Translated from `src/output/run.rs`: `TestRunEnd::builder`. -/
def TestRunEnd.builder : TestRunEndBuilder := TestRunEndBuilder.new

/-- Translated from `src/output/run.rs`: `TestRunEnd::to_artifact`. -/
def TestRunEnd.to_artifact (t : TestRunEnd) : Spec.RootImpl :=
  let inner : Spec.TestRunEnd := { status := t.status, result := t.result }
  .TestRunArtifact { artifact := .TestRunEnd inner }

/-- Translated from `src/output/run.rs`: `StartedTestRun`, owning the run and
the monotonically increasing step-id counter (`AtomicU64`, modelled as `Nat`;
id allocation is lock-free and independent of the emission lock). -/
structure StartedTestRun where
  run : TestRun
  step_seqno : Nat

/-- Translated from `src/output/run.rs`: `StartedTestRun::new`. -/
def StartedTestRun.new (run : TestRun) : StartedTestRun :=
  { run := run, step_seqno := 0 }

/-- Translated from `src/output/run.rs`: `TestRun::start`. Emits the schema
version marker, then builds the run-start artifact (folding any run metadata
into the builder) and emits it; either emission failing short-circuits with
the error, and only on success is a `StartedTestRun` produced. The two `ok`
flags are the outcomes of the two external encode+writes. -/
def TestRun.start (run : TestRun) (ok1 ok2 : Bool) (s : EmitterState) :
    Except WriterError StartedTestRun × EmitterState :=
  let version := SchemaVersion.new
  match emit ok1 version.to_artifact s with
  | (.error e, s1) => (.error e, s1)
  | (.ok _, s1) =>
    let builder := TestRunStart.builder run.name run.version run.command_line
      run.parameters run.dut
    let builder :=
      match run.metadata with
      | some m =>
        m.foldl
          (fun (b : TestRunStartBuilder) (kv : String × Json) =>
            b.add_metadata kv.1 kv.2)
          builder
      | none => builder
    let start := builder.build
    match emit ok2 start.to_artifact s1 with
    | (.error e, s2) => (.error e, s2)
    | (.ok _, s2) => (.ok (StartedTestRun.new run), s2)

/-- Translated from `src/output/run.rs`: `StartedTestRun::end`. -/
def StartedTestRun.end_ (_r : StartedTestRun) (status : Spec.TestStatus)
    (result : Spec.TestResult) (ok : Bool) (s : EmitterState) :
    Except WriterError Unit × EmitterState :=
  let e := ((TestRunEnd.builder.with_status status).with_result result).build
  match emit ok e.to_artifact s with
  | (.error err, s1) => (.error err, s1)
  | (.ok _, s1) => (.ok (), s1)

/-- Modelled from the spec (the `log` module is not among the provided
sources): `Log::builder(msg)` followed by `.severity(sev)` and `.build()`
yields a log object with no source location; its `to_artifact` is the spec
value itself. -/
def Log.build (severity : Spec.LogSeverity) (msg : String) : Spec.Log :=
  { severity := severity, message := msg, source_location := none }

/-- Translated from `src/output/run.rs`: `StartedTestRun::log`. -/
def StartedTestRun.log (_r : StartedTestRun) (severity : Spec.LogSeverity)
    (msg : String) (ok : Bool) (s : EmitterState) :
    Except WriterError Unit × EmitterState :=
  let log := Log.build severity msg
  let artifact : Spec.TestRunArtifact := { artifact := .Log log }
  match emit ok (.TestRunArtifact artifact) s with
  | (.error err, s1) => (.error err, s1)
  | (.ok _, s1) => (.ok (), s1)

/-- Translated from `src/output/run.rs`: `StartedTestRun::log_with_details`. -/
def StartedTestRun.log_with_details (_r : StartedTestRun) (log : Spec.Log)
    (ok : Bool) (s : EmitterState) : Except WriterError Unit × EmitterState :=
  let artifact : Spec.TestRunArtifact := { artifact := .Log log }
  match emit ok (.TestRunArtifact artifact) s with
  | (.error err, s1) => (.error err, s1)
  | (.ok _, s1) => (.ok (), s1)

/-- Modelled from the spec (the `error` module is not among the provided
sources): `Error::builder(symptom).build()` yields an error object with only
the symptom set. -/
def Error.build (symptom : String) : Spec.Error :=
  { symptom := symptom, message := none, software_infos := none,
    source_location := none }

/-- Translated from `src/output/run.rs`: `StartedTestRun::error`. -/
def StartedTestRun.error (_r : StartedTestRun) (symptom : String) (ok : Bool)
    (s : EmitterState) : Except WriterError Unit × EmitterState :=
  let error := Error.build symptom
  let artifact : Spec.TestRunArtifact := { artifact := .Error error }
  match emit ok (.TestRunArtifact artifact) s with
  | (.error err, s1) => (.error err, s1)
  | (.ok _, s1) => (.ok (), s1)

/-- Translated from `src/output/run.rs`: `StartedTestRun::error_with_msg`
(builder with symptom and message). -/
def StartedTestRun.error_with_msg (_r : StartedTestRun) (symptom msg : String)
    (ok : Bool) (s : EmitterState) : Except WriterError Unit × EmitterState :=
  let error : Spec.Error :=
    { symptom := symptom, message := some msg, software_infos := none,
      source_location := none }
  let artifact : Spec.TestRunArtifact := { artifact := .Error error }
  match emit ok (.TestRunArtifact artifact) s with
  | (.error err, s1) => (.error err, s1)
  | (.ok _, s1) => (.ok (), s1)

/-- Translated from `src/output/run.rs`: `StartedTestRun::error_with_details`. -/
def StartedTestRun.error_with_details (_r : StartedTestRun) (error : Spec.Error)
    (ok : Bool) (s : EmitterState) : Except WriterError Unit × EmitterState :=
  let artifact : Spec.TestRunArtifact := { artifact := .Error error }
  match emit ok (.TestRunArtifact artifact) s with
  | (.error err, s1) => (.error err, s1)
  | (.ok _, s1) => (.ok (), s1)

/-- Modelled from the spec (the `step` module is not among the provided
sources): an unstarted `TestStep` holds the step id assigned at creation and
the step name. -/
structure TestStep where
  id : String
  name : String

/-- Modelled from the spec: `TestStep::new`. -/
def TestStep.new (id name : String) : TestStep :=
  { id := id, name := name }

/-- Translated from `src/output/run.rs`: `StartedTestRun::step`: the step id
is minted as `step_{counter}` from the `fetch_add(1)` of the step counter, and
a `TestStep` is created with it; the updated run handle is returned
explicitly in place of the atomic's in-place increment. -/
def StartedTestRun.step (r : StartedTestRun) (name : String) :
    TestStep × StartedTestRun :=
  let step_id := "step_" ++ Nat.repr r.step_seqno
  (TestStep.new step_id name, { r with step_seqno := r.step_seqno + 1 })

/-- Modelled from the spec: a started test step: the step id (unchanged from
creation) plus the measurement-series id counter scoped to this step. -/
structure StartedTestStep where
  id : String
  series_seqno : Nat

/-- Modelled from the spec: `TestStep::start` emits the `testStepStart`
artifact under this step's id and, on success, produces the started step with
a fresh series counter; an emission failure short-circuits with the error. -/
def TestStep.start (ts : TestStep) (ok : Bool) (s : EmitterState) :
    Except WriterError StartedTestStep × EmitterState :=
  let artifact : Spec.TestStepArtifact :=
    { id := ts.id, artifact := .TestStepStart { name := ts.name } }
  match emit ok (.TestStepArtifact artifact) s with
  | (.error err, s1) => (.error err, s1)
  | (.ok _, s1) => (.ok { id := ts.id, series_seqno := 0 }, s1)

/-- Modelled from the spec: an unstarted measurement series: the owning step
id, the series id assigned at creation, and the series start payload. -/
structure MeasurementSeries where
  step_id : String
  start_info : Spec.MeasurementSeriesStart

/-- Modelled from the spec: `StartedTestStep::measurement_series(name)` mints
the series id as `series_{counter}` from the step's series counter and
creates the series with only name and id set. -/
def StartedTestStep.measurement_series (st : StartedTestStep) (name : String) :
    MeasurementSeries × StartedTestStep :=
  let series_id := "series_" ++ Nat.repr st.series_seqno
  ({ step_id := st.id,
     start_info := { name := name, unit := none, series_id := series_id,
                     validators := none, hardware_info := none,
                     subcomponent := none, metadata := none } },
   { st with series_seqno := st.series_seqno + 1 })

/-- Modelled from the spec: a started measurement series: the owning step id,
the series id, and the element-index counter, which starts at 0 and increments
by exactly 1 per successfully emitted element, independent of the global
sequence number. -/
structure StartedMeasurementSeries where
  step_id : String
  series_id : String
  seq_no : Nat

/-- Modelled from the spec: `MeasurementSeries::start` emits the
`measurementSeriesStart` artifact and, on success, produces the started series
with its element counter at 0. -/
def MeasurementSeries.start (ms : MeasurementSeries) (ok : Bool)
    (s : EmitterState) : Except WriterError StartedMeasurementSeries × EmitterState :=
  let artifact : Spec.TestStepArtifact :=
    { id := ms.step_id, artifact := .MeasurementSeriesStart ms.start_info }
  match emit ok (.TestStepArtifact artifact) s with
  | (.error err, s1) => (.error err, s1)
  | (.ok _, s1) =>
    (.ok { step_id := ms.step_id, series_id := ms.start_info.series_id,
           seq_no := 0 }, s1)

/-- Modelled from the spec: the common path of `add_measurement` and
`add_measurement_with_metadata`: emit a `measurementSeriesElement` carrying
the current element index, the value, the `now()` timestamp and the series id;
on success the element counter advances by exactly 1. -/
def StartedMeasurementSeries.add_measurement_with_metadata
    (ser : StartedMeasurementSeries) (value : Json) (metadata : Option JsonMap)
    (ok : Bool) (s : EmitterState) :
    Except WriterError Unit × StartedMeasurementSeries × EmitterState :=
  let element : Spec.MeasurementSeriesElement :=
    { index := ser.seq_no, value := value, timestamp := s.clock s.seqno,
      series_id := ser.series_id, metadata := metadata }
  let artifact : Spec.TestStepArtifact :=
    { id := ser.step_id, artifact := .MeasurementSeriesElement element }
  match emit ok (.TestStepArtifact artifact) s with
  | (.error err, s1) => (.error err, ser, s1)
  | (.ok _, s1) => (.ok (), { ser with seq_no := ser.seq_no + 1 }, s1)

/-- Modelled from the spec: `add_measurement` is
`add_measurement_with_metadata` without metadata. -/
def StartedMeasurementSeries.add_measurement (ser : StartedMeasurementSeries)
    (value : Json) (ok : Bool) (s : EmitterState) :
    Except WriterError Unit × StartedMeasurementSeries × EmitterState :=
  ser.add_measurement_with_metadata value none ok s

/-- Modelled from the spec: `StartedMeasurementSeries::end` emits the
`measurementSeriesEnd` artifact whose `totalCount` is the number of elements
successfully emitted on this series. -/
def StartedMeasurementSeries.end_ (ser : StartedMeasurementSeries) (ok : Bool)
    (s : EmitterState) : Except WriterError Unit × EmitterState :=
  let artifact : Spec.TestStepArtifact :=
    { id := ser.step_id, artifact := .MeasurementSeriesEnd
        { series_id := ser.series_id, total_count := ser.seq_no } }
  match emit ok (.TestStepArtifact artifact) s with
  | (.error err, s1) => (.error err, s1)
  | (.ok _, s1) => (.ok (), s1)

/-- Successive creation of one step per name in the list, in order, mirroring
repeated `StartedTestRun::step` calls. -/
def createSteps (r : StartedTestRun) (names : List String) :
    List TestStep × StartedTestRun :=
  match names with
  | [] => ([], r)
  | n :: rest =>
    let (ts, r1) := r.step n
    let (l, r2) := createSteps r1 rest
    (ts :: l, r2)

/-- Successive successful `add_measurement_with_metadata` calls on a series,
one per value in the list. -/
def addAll (vals : List (Json × Option JsonMap))
    (ser : StartedMeasurementSeries) (s : EmitterState) :
    StartedMeasurementSeries × EmitterState :=
  match vals with
  | [] => (ser, s)
  | (v, md) :: rest =>
    let (_, ser1, s1) := ser.add_measurement_with_metadata v md true s
    addAll rest ser1 s1

end Output

/-- Standalone serde serialization of a root artifact kind (the externally
tagged enum on its own). -/
def Spec.RootImpl.serialize (a : Spec.RootImpl) : Json :=
  .obj [a.kv]

/-- Sequence-number field of an emitted line. -/
def seqnoOf (l : Json) : Option Json :=
  l.lookup ("sequenceNumber")

/-- Field of the `testRunStart` payload of an emitted line. -/
def runStartField (l : Json) (k : String) : Option Json :=
  ((l.lookup ("testRunArtifact")).bind
    (fun a => a.lookup ("testRunStart"))).bind (fun t => t.lookup k)

/-- Payload of the `testRunEnd` artifact of an emitted line. -/
def runEndOf (l : Json) : Option Json :=
  (l.lookup ("testRunArtifact")).bind (fun a => a.lookup ("testRunEnd"))

/-- Payload of the `schemaVersion` artifact of an emitted line. -/
def schemaVersionOf (l : Json) : Option Json :=
  l.lookup ("schemaVersion")

/-- Element index carried by an emitted `measurementSeriesElement` line. -/
def elementIndexOf (l : Json) : Option Json :=
  ((l.lookup ("testStepArtifact")).bind
    (fun a => a.lookup ("measurementSeriesElement"))).bind
    (fun e => e.lookup ("index"))

/-- Total count carried by an emitted `measurementSeriesEnd` line. -/
def totalCountOf (l : Json) : Option Json :=
  ((l.lookup ("testStepArtifact")).bind
    (fun a => a.lookup ("measurementSeriesEnd"))).bind
    (fun e => e.lookup ("totalCount"))

/-- The run scenario of claim C2: start the run, then immediately end it with
status `Complete` and result `Pass`, every write succeeding. -/
def runStartEnd (run : Output.TestRun) (s : Output.EmitterState) :
    Output.EmitterState :=
  match run.start true true s with
  | (.ok sr, s1) => (sr.end_ .Complete .Pass true s1).2
  | (.error _, s1) => s1

/-- The full builder pipeline of claim C9: construct a `TestRunStartBuilder`
from its inputs, apply a sequence of `add_metadata` calls in order, build, and
serialize the resulting artifact. -/
def buildRunStartArtifact (name version command_line : String)
    (parameters : JsonMap) (dut : Spec.DutInfo)
    (ops : List (String × Json)) : Json :=
  let b0 := Output.TestRunStartBuilder.new name version command_line
    parameters dut
  let b := ops.foldl
    (fun (b : Output.TestRunStartBuilder) (kv : String × Json) =>
      b.add_metadata kv.1 kv.2) b0
  Spec.RootImpl.serialize b.build.to_artifact

/-- Decimal digit list of a natural number, the closed form of the fuelled
`Nat.toDigitsCore 10` recursion underlying `Nat.repr`. -/
def decimalDigits (n : Nat) : List Char :=
  if h : n / 10 = 0 then [Nat.digitChar (n % 10)]
  else decimalDigits (n / 10) ++ [Nat.digitChar (n % 10)]
termination_by n
decreasing_by
  have hn : n ≠ 0 := by
    intro h0
    exact h (by simp [h0])
  exact Nat.div_lt_self (Nat.pos_of_ne_zero hn) (by omega)

/-- Decimal decoding of a digit-character list, a left inverse of
`decimalDigits`. -/
def decodeDecimal (l : List Char) : Nat :=
  l.foldl (fun a c => 10 * a + (c.toNat - 48)) 0

open Output

theorem toDigitsCore_eq_decimalDigits (fuel : Nat) :
    ∀ (n : Nat) (ds : List Char), n < fuel →
      Nat.toDigitsCore 10 fuel n ds = decimalDigits n ++ ds := by
  induction fuel with
  | zero => intro n ds h; omega
  | succ f ih =>
    intro n ds h
    by_cases h0 : n / 10 = 0
    · rw [Nat.toDigitsCore, decimalDigits]
      simp [h0]
    · rw [Nat.toDigitsCore]
      simp only [h0, if_false]
      have hn : n ≠ 0 := by
        intro hz
        exact h0 (by simp [hz])
      have hlt : n / 10 < n := Nat.div_lt_self (Nat.pos_of_ne_zero hn) (by omega)
      rw [ih (n / 10) _ (by omega)]
      conv_rhs => rw [decimalDigits, dif_neg h0]
      simp

theorem toDigits_eq_decimalDigits (n : Nat) :
    Nat.toDigits 10 n = decimalDigits n := by
  rw [Nat.toDigits, toDigitsCore_eq_decimalDigits (n + 1) n [] (by omega)]
  simp

theorem digitChar_decode :
    ∀ d : Nat, d < 10 → (Nat.digitChar d).toNat - 48 = d := by
  decide

theorem decodeDecimal_decimalDigits (n : Nat) :
    decodeDecimal (decimalDigits n) = n := by
  induction n using Nat.strong_induction_on with
  | _ n ih =>
    have hmod : n % 10 < 10 := Nat.mod_lt _ (by omega)
    by_cases h0 : n / 10 = 0
    · rw [decimalDigits, dif_pos h0]
      simp [decodeDecimal, digitChar_decode _ hmod]
      omega
    · rw [decimalDigits, dif_neg h0]
      have hn : n ≠ 0 := by
        intro hz
        exact h0 (by simp [hz])
      have hlt : n / 10 < n := Nat.div_lt_self (Nat.pos_of_ne_zero hn) (by omega)
      unfold decodeDecimal
      rw [List.foldl_append]
      have hpre := ih (n / 10) hlt
      unfold decodeDecimal at hpre
      rw [hpre]
      simp [digitChar_decode _ hmod]
      omega

theorem nat_repr_injective : Function.Injective Nat.repr := by
  intro m n h
  have hdig : Nat.toDigits 10 m = Nat.toDigits 10 n := by
    have hs : (Nat.toDigits 10 m).asString = (Nat.toDigits 10 n).asString := h
    simpa [List.asString, String.ext_iff] using hs
  rw [toDigits_eq_decimalDigits, toDigits_eq_decimalDigits] at hdig
  have hdec := congrArg decodeDecimal hdig
  rwa [decodeDecimal_decimalDigits, decodeDecimal_decimalDigits] at hdec

theorem prefix_repr_injective (p : String) :
    Function.Injective (fun n => p ++ Nat.repr n) := by
  intro m n h
  apply nat_repr_injective
  apply String.ext
  have hd := congrArg String.data h
  simp only [String.data_append] at hd
  exact List.append_cancel_left hd

theorem emit_true_state (a : Spec.RootImpl) (s : EmitterState) :
    (emit true a s).2 =
      { s with seqno := s.seqno + 1,
               lines := s.lines ++ [Spec.Root.serialize
                 { artifact := a, timestamp := s.clock s.seqno,
                   seqno := s.seqno }] } := rfl

theorem emit_false_state (a : Spec.RootImpl) (s : EmitterState) :
    (emit false a s).2 = { s with seqno := s.seqno + 1 } := rfl

theorem seqnoOf_serialize (a : Spec.RootImpl) (ts : Spec.Timestamp) (n : Nat) :
    seqnoOf (Spec.Root.serialize
        { artifact := a, timestamp := ts, seqno := n })
      = some (Json.num (Int.ofNat n)) := by
  cases a <;> simp [seqnoOf, Spec.Root.serialize, Spec.RootImpl.kv,
    Json.lookup, jsonLookup]

theorem emitAll_seqnos (arts : List Spec.RootImpl) (s : EmitterState) :
    (emitAll arts s).lines.map seqnoOf
      = s.lines.map seqnoOf
        ++ (List.range' s.seqno arts.length).map
             (fun i => some (Json.num (Int.ofNat i))) := by
  induction arts generalizing s with
  | nil => simp [emitAll]
  | cons a as ih =>
    have hstep : emitAll (a :: as) s = emitAll as (emit true a s).2 := rfl
    rw [hstep, ih, emit_true_state]
    simp [List.range'_succ, seqnoOf_serialize]

theorem elementIndexOf_serialize (id : String)
    (e : Spec.MeasurementSeriesElement) (ts : Spec.Timestamp) (n : Nat) :
    elementIndexOf (Spec.Root.serialize
      { artifact := .TestStepArtifact
          { id := id, artifact := .MeasurementSeriesElement e },
        timestamp := ts, seqno := n })
      = some (Json.num (Int.ofNat e.index)) := by
  simp [elementIndexOf, Spec.Root.serialize, Spec.RootImpl.kv,
    Spec.TestStepArtifact.serialize, Spec.TestStepArtifactImpl.kv,
    Spec.MeasurementSeriesElement.serialize, Json.lookup, jsonLookup]

theorem totalCountOf_serialize (id : String)
    (e : Spec.MeasurementSeriesEnd) (ts : Spec.Timestamp) (n : Nat) :
    totalCountOf (Spec.Root.serialize
      { artifact := .TestStepArtifact
          { id := id, artifact := .MeasurementSeriesEnd e },
        timestamp := ts, seqno := n })
      = some (Json.num (Int.ofNat e.total_count)) := by
  simp [totalCountOf, Spec.Root.serialize, Spec.RootImpl.kv,
    Spec.TestStepArtifact.serialize, Spec.TestStepArtifactImpl.kv,
    Spec.MeasurementSeriesEnd.serialize, Json.lookup, jsonLookup]

theorem addAll_spec (vals : List (Json × Option JsonMap))
    (ser : StartedMeasurementSeries) (s : EmitterState) :
    (addAll vals ser s).1.seq_no = ser.seq_no + vals.length
    ∧ (addAll vals ser s).1.step_id = ser.step_id
    ∧ (addAll vals ser s).1.series_id = ser.series_id
    ∧ (addAll vals ser s).2.lines.map elementIndexOf
        = s.lines.map elementIndexOf
          ++ (List.range' ser.seq_no vals.length).map
               (fun i => some (Json.num (Int.ofNat i))) := by
  induction vals generalizing ser s with
  | nil => simp [addAll]
  | cons v rest ih =>
    have hstep : addAll (v :: rest) ser s
        = addAll rest { ser with seq_no := ser.seq_no + 1 }
            (emit true (.TestStepArtifact
              { id := ser.step_id, artifact := .MeasurementSeriesElement
                  { index := ser.seq_no, value := v.1,
                    timestamp := s.clock s.seqno,
                    series_id := ser.series_id, metadata := v.2 } }) s).2 := rfl
    rw [hstep]
    obtain ⟨h1, h2, h3, h4⟩ := ih { ser with seq_no := ser.seq_no + 1 }
      (emit true (.TestStepArtifact
        { id := ser.step_id, artifact := .MeasurementSeriesElement
            { index := ser.seq_no, value := v.1,
              timestamp := s.clock s.seqno,
              series_id := ser.series_id, metadata := v.2 } }) s).2
    refine ⟨?_, by simpa using h2, by simpa using h3, ?_⟩
    · rw [h1]
      simp
      omega
    rw [h4, emit_true_state]
    simp [List.range'_succ, elementIndexOf_serialize]

theorem foldl_add_metadata_fields (m : List (String × Json))
    (b : TestRunStartBuilder) :
    (m.foldl (fun (b : TestRunStartBuilder) (kv : String × Json) =>
        b.add_metadata kv.1 kv.2) b)
      = { b with metadata :=
            (m.foldl (fun (b : TestRunStartBuilder) (kv : String × Json) =>
              b.add_metadata kv.1 kv.2) b).metadata } := by
  induction m generalizing b with
  | nil => rfl
  | cons kv rest ih =>
    simp only [List.foldl_cons]
    rw [ih]
    rfl

theorem createSteps_ids (names : List String) (r : StartedTestRun) :
    ((createSteps r names).1.map TestStep.id)
      = (List.range' r.step_seqno names.length).map
          (fun i => "step_" ++ Nat.repr i) := by
  induction names generalizing r with
  | nil => simp [createSteps]
  | cons n rest ih =>
    simp only [createSteps, StartedTestRun.step, TestStep.new]
    simp [List.range'_succ, ih]

/-- Claim C1: for every run and every sequence of N emit calls performed on
its emitter (in lock-commit order, whatever the interleaving of the callers),
the sequence numbers carried by the emitted envelopes are exactly the integers
of `0..N` (i.e. `0` to `N-1`), in order, with no gaps and no repeats. -/
theorem c1_sequence_numbers_exact (arts : List Spec.RootImpl)
    (clock : Nat → Spec.Timestamp) :
    (emitAll arts (EmitterState.init clock)).lines.map seqnoOf
      = (List.range arts.length).map
          (fun i => some (Json.num (Int.ofNat i))) := by
  rw [emitAll_seqnos]
  simp [EmitterState.init, List.range_eq_range']

/-- Claim C2: for every run, `start()` followed by `end(Complete, Pass)` with
no other emissions produces exactly 3 lines: a `schemaVersion` envelope with
sequence number 0 (present on that line only, so the marker is emitted first
and exactly once), then a `testRunStart` envelope with sequence number 1
carrying the run's name and dutInfo, then a `testRunEnd` envelope with
sequence number 2 carrying status COMPLETE and result PASS. -/
theorem c2_start_end_three_lines (run : TestRun)
    (clock : Nat → Spec.Timestamp) :
    (runStartEnd run (EmitterState.init clock)).lines.length = 3
    ∧ (runStartEnd run (EmitterState.init clock)).lines.map seqnoOf
        = [some (Json.num 0), some (Json.num 1), some (Json.num 2)]
    ∧ ((runStartEnd run (EmitterState.init clock)).lines.get? 0).bind
        schemaVersionOf
        = some (Json.obj [("major", Json.num 2), ("minor", Json.num 0)])
    ∧ ((runStartEnd run (EmitterState.init clock)).lines.get? 1).bind
        schemaVersionOf = none
    ∧ ((runStartEnd run (EmitterState.init clock)).lines.get? 2).bind
        schemaVersionOf = none
    ∧ ((runStartEnd run (EmitterState.init clock)).lines.get? 1).bind
        (fun l => runStartField l ("name")) = some (Json.str run.name)
    ∧ ((runStartEnd run (EmitterState.init clock)).lines.get? 1).bind
        (fun l => runStartField l ("dutInfo")) = some run.dut.serialize
    ∧ ((runStartEnd run (EmitterState.init clock)).lines.get? 2).bind
        runEndOf
        = some (Json.obj [("status", Json.str ("COMPLETE")),
                          ("result", Json.str ("PASS"))]) := by
  refine ⟨?_, ?_, ?_, ?_, ?_, ?_, ?_, ?_⟩
  · simp [runStartEnd, TestRun.start, StartedTestRun.end_, emit,
      EmitterState.init]
  · simp [runStartEnd, TestRun.start, StartedTestRun.end_, emit,
      EmitterState.init, seqnoOf_serialize]
  · simp [runStartEnd, TestRun.start, StartedTestRun.end_, emit,
      EmitterState.init, schemaVersionOf, SchemaVersion.new,
      SchemaVersion.to_artifact, Spec.SPEC_VERSION, Spec.Root.serialize,
      Spec.RootImpl.kv, Spec.SchemaVersion.serialize, Json.lookup, jsonLookup]
  · simp only [runStartEnd, TestRun.start, StartedTestRun.end_, emit,
      EmitterState.init]
    cases hm : run.metadata with
    | none =>
      simp [schemaVersionOf, TestRunStartBuilder.build,
        TestRunStart.to_artifact, TestRunStart.builder,
        TestRunStartBuilder.new, Spec.Root.serialize, Spec.RootImpl.kv,
        Spec.TestRunArtifact.serialize, Spec.TestRunArtifactImpl.kv,
        Json.lookup, jsonLookup]
    | some m =>
      simp only []
      rw [foldl_add_metadata_fields]
      simp [schemaVersionOf, TestRunStartBuilder.build,
        TestRunStart.to_artifact, TestRunStart.builder,
        TestRunStartBuilder.new, Spec.Root.serialize, Spec.RootImpl.kv,
        Spec.TestRunArtifact.serialize, Spec.TestRunArtifactImpl.kv,
        Json.lookup, jsonLookup]
  · simp [runStartEnd, TestRun.start, StartedTestRun.end_, emit,
      EmitterState.init, schemaVersionOf, TestRunEnd.to_artifact,
      TestRunEnd.builder, TestRunEndBuilder.new, TestRunEndBuilder.with_status,
      TestRunEndBuilder.with_result, TestRunEndBuilder.build,
      Spec.Root.serialize, Spec.RootImpl.kv, Spec.TestRunArtifact.serialize,
      Spec.TestRunArtifactImpl.kv, Json.lookup, jsonLookup]
  · simp only [runStartEnd, TestRun.start, StartedTestRun.end_, emit,
      EmitterState.init]
    cases hm : run.metadata with
    | none =>
      simp [runStartField, TestRunStartBuilder.build,
        TestRunStart.to_artifact, TestRunStart.builder,
        TestRunStartBuilder.new, Spec.Root.serialize, Spec.RootImpl.kv,
        Spec.TestRunArtifact.serialize, Spec.TestRunArtifactImpl.kv,
        Spec.TestRunStart.serialize, Json.lookup, jsonLookup]
    | some m =>
      simp only []
      rw [foldl_add_metadata_fields]
      simp [runStartField, TestRunStartBuilder.build,
        TestRunStart.to_artifact, TestRunStart.builder,
        TestRunStartBuilder.new, Spec.Root.serialize, Spec.RootImpl.kv,
        Spec.TestRunArtifact.serialize, Spec.TestRunArtifactImpl.kv,
        Spec.TestRunStart.serialize, Json.lookup, jsonLookup]
  · simp only [runStartEnd, TestRun.start, StartedTestRun.end_, emit,
      EmitterState.init]
    cases hm : run.metadata with
    | none =>
      simp [runStartField, TestRunStartBuilder.build,
        TestRunStart.to_artifact, TestRunStart.builder,
        TestRunStartBuilder.new, Spec.Root.serialize, Spec.RootImpl.kv,
        Spec.TestRunArtifact.serialize, Spec.TestRunArtifactImpl.kv,
        Spec.TestRunStart.serialize, Json.lookup, jsonLookup]
    | some m =>
      simp only []
      rw [foldl_add_metadata_fields]
      simp [runStartField, TestRunStartBuilder.build,
        TestRunStart.to_artifact, TestRunStart.builder,
        TestRunStartBuilder.new, Spec.Root.serialize, Spec.RootImpl.kv,
        Spec.TestRunArtifact.serialize, Spec.TestRunArtifactImpl.kv,
        Spec.TestRunStart.serialize, Json.lookup, jsonLookup]
  · simp [runStartEnd, TestRun.start, StartedTestRun.end_, emit,
      EmitterState.init, runEndOf, TestRunEnd.to_artifact,
      TestRunEnd.builder, TestRunEndBuilder.new, TestRunEndBuilder.with_status,
      TestRunEndBuilder.with_result, TestRunEndBuilder.build,
      Spec.Root.serialize, Spec.RootImpl.kv, Spec.TestRunArtifact.serialize,
      Spec.TestRunArtifactImpl.kv, Spec.TestRunEnd.serialize,
      Spec.TestStatus.serialize, Spec.TestResult.serialize,
      Json.lookup, jsonLookup]

/-- Claim C3: for every started test run, the n-th `step()` call (counting
from 1) returns a `TestStep` whose id is `step_{n-1}`: ids are assigned at
creation in creation order, are never reused within a run (the id list has no
duplicates), and do not depend on the order in which steps are later started
(starting a step preserves the id it was created with). -/
theorem c3_step_ids_creation_order (run : TestRun) (names : List String)
    (ts : TestStep) (s : EmitterState) :
    ((createSteps (StartedTestRun.new run) names).1.map TestStep.id
        = (List.range names.length).map (fun i => "step_" ++ Nat.repr i))
    ∧ ((createSteps (StartedTestRun.new run) names).1.map TestStep.id).Nodup
    ∧ (ts.start true s).1 = Except.ok { id := ts.id, series_seqno := 0 } := by
  have hids := createSteps_ids names (StartedTestRun.new run)
  refine ⟨?_, ?_, rfl⟩
  · rw [hids]
    simp [StartedTestRun.new, List.range_eq_range']
  · rw [hids]
    simp only [StartedTestRun.new]
    rw [← List.range_eq_range']
    exact List.Nodup.map (prefix_repr_injective ("step_"))
      (List.nodup_range _)

/-- Claim C4: a freshly started measurement series has element counter 0; for
every started series and every sequence of k successful `add_measurement*`
calls, the emitted `measurementSeriesElement` lines carry indices exactly
`0..k-1` in order (independently of the surrounding emitter state, hence of
the global sequence number and of any other series), and the
`measurementSeriesEnd` artifact emitted by `end()` carries `totalCount` equal
to the number of elements successfully emitted. -/
theorem c4_series_indices_and_total_count (stid sid : String)
    (vals : List (Json × Option JsonMap)) (ms : MeasurementSeries)
    (s s0 : EmitterState) :
    ((ms.start true s0).1
        = Except.ok { step_id := ms.step_id,
                      series_id := ms.start_info.series_id, seq_no := 0 })
    ∧ ((addAll vals { step_id := stid, series_id := sid, seq_no := 0 } s).2.lines.map
          elementIndexOf
        = s.lines.map elementIndexOf
          ++ (List.range vals.length).map
               (fun i => some (Json.num (Int.ofNat i))))
    ∧ ((((addAll vals { step_id := stid, series_id := sid, seq_no := 0 } s).1.end_
            true
            (addAll vals { step_id := stid, series_id := sid, seq_no := 0 } s).2).2.lines.getLast?).bind
          totalCountOf
        = some (Json.num (Int.ofNat vals.length))) := by
  obtain ⟨h1, h2, h3, h4⟩ :=
    addAll_spec vals { step_id := stid, series_id := sid, seq_no := 0 } s
  refine ⟨rfl, ?_, ?_⟩
  · rw [h4]
    simp [List.range_eq_range']
  · simp [StartedMeasurementSeries.end_, emit, List.getLast?_concat,
      totalCountOf_serialize, h1]

/-- Claim C5: when an emit fails, the sequence counter has still been
incremented and nothing (in particular no partial line) reaches the sink: the
failed call returns the error, leaves the sink unchanged and consumes a
sequence number, so the next successful emission carries a number greater by
more than 1 than the last successfully written one, leaving a gap. -/
theorem c5_failed_emit_consumes_seqno (s : EmitterState)
    (a b c : Spec.RootImpl) :
    ((emit false b (emit true a s).2).1 = .error .writerError)
    ∧ ((emit false b (emit true a s).2).2.lines = (emit true a s).2.lines)
    ∧ ((emit false b (emit true a s).2).2.seqno = (emit true a s).2.seqno + 1)
    ∧ ((emit true c (emit false b (emit true a s).2).2).2.lines.map seqnoOf
        = s.lines.map seqnoOf
          ++ [some (Json.num (Int.ofNat s.seqno)),
              some (Json.num (Int.ofNat (s.seqno + 2)))])
    ∧ s.seqno + 2 > s.seqno + 1 := by
  refine ⟨rfl, rfl, rfl, ?_, by omega⟩
  simp [emit_true_state, emit_false_state, seqnoOf_serialize]
  omega

/-- Claim C6: every lifecycle operation that emits returns the emitter's
error and does not complete its state transition when the underlying emit
fails: `TestRun::start` returns the error (and no `StartedTestRun`) if either
the schema-version emission or the run-start emission fails, attempting no
retry (the counter advances by exactly one consumed number per attempted
emission and the sink receives nothing from the failed call); `end`, `log`,
`log_with_details`, `error`, `error_with_msg` and `error_with_details`
likewise surface the error and write nothing. -/
theorem c6_emit_failure_short_circuits (run : TestRun) (r : StartedTestRun)
    (st : Spec.TestStatus) (res : Spec.TestResult) (sev : Spec.LogSeverity)
    (msg sym : String) (lg : Spec.Log) (er : Spec.Error) (s : EmitterState) :
    (run.start false true s).1 = .error .writerError
    ∧ (run.start false true s).2.lines = s.lines
    ∧ (run.start false true s).2.seqno = s.seqno + 1
    ∧ (run.start true false s).1 = .error .writerError
    ∧ (run.start true false s).2.seqno = s.seqno + 2
    ∧ (run.start true false s).2.lines.length = s.lines.length + 1
    ∧ (run.start true true s).1 = .ok (StartedTestRun.new run)
    ∧ (r.end_ st res false s).1 = .error .writerError
    ∧ (r.end_ st res false s).2.lines = s.lines
    ∧ (r.log sev msg false s).1 = .error .writerError
    ∧ (r.log sev msg false s).2.lines = s.lines
    ∧ (r.log_with_details lg false s).1 = .error .writerError
    ∧ (r.log_with_details lg false s).2.lines = s.lines
    ∧ (r.error sym false s).1 = .error .writerError
    ∧ (r.error sym false s).2.lines = s.lines
    ∧ (r.error_with_msg sym msg false s).1 = .error .writerError
    ∧ (r.error_with_msg sym msg false s).2.lines = s.lines
    ∧ (r.error_with_details er false s).1 = .error .writerError
    ∧ (r.error_with_details er false s).2.lines = s.lines := by
  refine ⟨rfl, rfl, rfl, rfl, rfl, ?_, rfl, rfl, rfl, rfl, rfl, rfl, rfl,
    rfl, rfl, rfl, rfl, rfl, rfl⟩
  simp [TestRun.start, emit]

/-- Claim C7: optional fields serialize as explicit `null` when unset and are
never omitted: the serialized `DutInfo` and `Error` objects always contain
every declared key, and with all optional fields unset each optional key maps
to `null`. -/
theorem c7_optional_fields_null (d : Spec.DutInfo) (e : Spec.Error)
    (id sym : String) :
    (Spec.DutInfo.serialize d).keys
        = ["dutInfoId", "name", "platformInfos", "softwareInfos",
           "hardwareInfos", "metadata"]
    ∧ (Spec.Error.serialize e).keys
        = ["symptom", "message", "softwareInfoIds", "sourceLocation"]
    ∧ Spec.DutInfo.serialize
          { id := id, name := none, platform_infos := none,
            software_infos := none, hardware_infos := none, metadata := none }
        = Json.obj [("dutInfoId", Json.str id), ("name", Json.null),
                    ("platformInfos", Json.null), ("softwareInfos", Json.null),
                    ("hardwareInfos", Json.null), ("metadata", Json.null)]
    ∧ Spec.Error.serialize
          { symptom := sym, message := none, software_infos := none,
            source_location := none }
        = Json.obj [("symptom", Json.str sym), ("message", Json.null),
                    ("softwareInfoIds", Json.null),
                    ("sourceLocation", Json.null)] :=
  ⟨rfl, rfl, rfl, rfl⟩

/-- Claim C8 (counterexample): the round trip is not the identity on every
`MeasurementSeriesElement`: a timestamp with a non-zero sub-millisecond
component (here 500000 ns = 0.5 ms) is floored to the whole millisecond by
the RFC3339 millisecond rendering, so deserializing the serialization yields
a different value. -/
theorem c8_roundtrip_counterexample :
    Spec.MeasurementSeriesElement.deserialize
        (Spec.MeasurementSeriesElement.serialize
          { index := 0, value := Json.num 1, timestamp := 500000,
            series_id := "s", metadata := none })
      ≠ some { index := 0, value := Json.num 1, timestamp := 500000,
               series_id := "s", metadata := none } := by
  decide

/-- Claim C8 (amended): for every `MeasurementSeriesElement` whose timestamp
is a whole number of milliseconds, serializing and then deserializing yields
a value equal to the original; in general the round trip preserves the
timestamp only to millisecond precision. -/
theorem c8_roundtrip_millisecond_precision
    (e : Spec.MeasurementSeriesElement)
    (h : (1000000 : Int) ∣ e.timestamp) :
    Spec.MeasurementSeriesElement.deserialize
      (Spec.MeasurementSeriesElement.serialize e) = some e := by
  obtain ⟨index, value, timestamp, series_id, metadata⟩ := e
  obtain ⟨k, hk⟩ := h
  have hk' : timestamp = 1000000 * k := hk
  clear hk
  subst hk'
  have hfd : Int.fdiv (1000000 * k) 1000000 * 1000000 = 1000000 * k := by
    rw [Int.mul_fdiv_cancel_left _ (by norm_num)]
    ring
  cases metadata with
  | none =>
    simp [Spec.MeasurementSeriesElement.serialize,
      Spec.MeasurementSeriesElement.deserialize, Spec.rfc3339_serialize,
      Spec.rfc3339_deserialize, Json.lookup, jsonLookup, optJson, hfd]
    ring
  | some m =>
    simp [Spec.MeasurementSeriesElement.serialize,
      Spec.MeasurementSeriesElement.deserialize, Spec.rfc3339_serialize,
      Spec.rfc3339_deserialize, Json.lookup, jsonLookup, optJson, hfd]
    ring

/-- Witness for claim C8 (amended): the round trip at a concrete element with
a whole-millisecond timestamp. -/
theorem c8_roundtrip_millisecond_precision_witness :
    (1000000 : Int) ∣ (2000000 : Int)
    ∧ Spec.MeasurementSeriesElement.deserialize
        (Spec.MeasurementSeriesElement.serialize
          { index := 3, value := Json.num 60, timestamp := 2000000,
            series_id := "series_0", metadata := none })
      = some { index := 3, value := Json.num 60, timestamp := 2000000,
               series_id := "series_0", metadata := none } :=
  ⟨⟨2, by norm_num⟩,
   c8_roundtrip_millisecond_precision
     { index := 3, value := Json.num 60, timestamp := 2000000,
       series_id := "series_0", metadata := none } ⟨2, by norm_num⟩⟩

/-- Claim C9: builders are deterministic: two runs of the
`TestRunStartBuilder` pipeline given identical inputs, with the same
`add_metadata` operations applied in the same order, produce artifacts whose
serialized forms are identical. -/
theorem c9_builder_determinism (n1 v1 cl1 : String) (p1 : JsonMap)
    (d1 : Spec.DutInfo) (ops1 : List (String × Json)) (n2 v2 cl2 : String)
    (p2 : JsonMap) (d2 : Spec.DutInfo) (ops2 : List (String × Json))
    (hn : n1 = n2) (hv : v1 = v2) (hc : cl1 = cl2) (hp : p1 = p2)
    (hd : d1 = d2) (hops : ops1 = ops2) :
    buildRunStartArtifact n1 v1 cl1 p1 d1 ops1
      = buildRunStartArtifact n2 v2 cl2 p2 d2 ops2 := by
  subst hn hv hc hp hd hops
  rfl

/-- Witness for claim C9: the determinism theorem applied at concrete
inputs. -/
theorem c9_builder_determinism_witness :
    buildRunStartArtifact ("run_name") ("1.0") ("cmd") [] (DutInfo.new ("d"))
        [("k", Json.str ("v"))]
      = buildRunStartArtifact ("run_name") ("1.0") ("cmd") []
          (DutInfo.new ("d")) [("k", Json.str ("v"))] :=
  c9_builder_determinism ("run_name") ("1.0") ("cmd") [] (DutInfo.new ("d"))
    [("k", Json.str ("v"))] ("run_name") ("1.0") ("cmd") [] (DutInfo.new ("d"))
    [("k", Json.str ("v"))] rfl rfl rfl rfl rfl rfl

/-- Claim C10: serializing a `Diagnosis` whose `hardware_info` field is set
produces a JSON object in which that `HardwareInfo` value appears under the
key `validators`, and there is no `hardwareInfoId` key. -/
theorem c10_diagnosis_hardware_info_key (verdict : String)
    (dtype : Spec.DiagnosisType) (msg : Option String)
    (hw : Spec.HardwareInfo) (sub : Option Spec.Subcomponent)
    (src : Option Spec.SourceLocation) (d : Spec.Diagnosis) :
    ((Spec.Diagnosis.serialize
        { verdict := verdict, diagnosis_type := dtype, message := msg,
          hardware_info := some hw, subcomponent := sub,
          source_location := src }).lookup ("validators")
      = some hw.serialize)
    ∧ ((Spec.Diagnosis.serialize d).lookup ("hardwareInfoId") = none) := by
  constructor
  · simp [Spec.Diagnosis.serialize, Json.lookup, jsonLookup, optJson]
  · simp [Spec.Diagnosis.serialize, Json.lookup, jsonLookup]
